import Mathlib

/-
Verification of the ClouDNS Ansible collection's API client
(plugins/module_utils/swagger/cloudns_api.py).

The development shallowly embeds the parts of `ClouDNSClient` that the
claims are about:
  * auth-key selection in `__init__` (lines 95-109),
  * the uniform response classifier `_check_response` (lines 125-132)
    and its driver `_call` (lines 134-142),
  * the "no records is not an error" normalization in `list_records`
    (lines 261-291),
  * the reconciliation engine `ensure_record` (lines 916-1045).

Python dictionaries preserve insertion order, so the record mapping
returned by `list_records` is embedded as an association list
`List (String × RecordData)`; iteration order in the embedding is the
iteration order of the Python dict.  The record values the engine reads
are the `record` and `ttl` fields; `ttl` arrives as a decimal string
from the API and is converted with `int(...)`, which the embedding
models as an already-parsed `Option Nat` (a missing key defaults to 0
via `record.get('ttl', 0)`).  Network calls either return a decoded
body or raise `ClouDNSError`; the embedding passes the outcome of each
underlying call in explicitly through an `Env`.
-/

/-- Boolean test that `needle` is a prefix of `hay`, on lists of
characters.  Used to express the substring checks that
`list_records` performs with the Python `in` operator. -/
def listStartsWith : List Char → List Char → Bool
  | [], _ => true
  | _ :: _, [] => false
  | c :: cs, d :: ds => c = d && listStartsWith cs ds

/-- Boolean substring test on lists of characters: does `needle` occur
contiguously inside `hay`? -/
def containsSub (needle : List Char) : List Char → Bool
  | [] => listStartsWith needle []
  | hay@(_ :: rest) => listStartsWith needle hay || containsSub needle rest

/-- String-level substring test, the embedding of Python
`needle in hay`. -/
def strContains (hay needle : String) : Bool :=
  containsSub needle.data hay.data

/-- Embedding of Python `str.lower()` restricted to the character-wise
lowercasing that the classifier relies on (the descriptions and needles
involved are ASCII). -/
def lowerStr (s : String) : String :=
  ⟨s.data.map Char.toLower⟩

/-- Embedding of Python `str.isdigit()` for the ASCII identifiers the
client handles: true exactly for a nonempty string of decimal digits
(Python returns `False` on the empty string). -/
def pyIsdigit (s : String) : Bool :=
  !s.isEmpty && s.data.all Char.isDigit

/-- Embedding of Python truthiness for the optional `value` argument:
`not value` is true when the argument is `None` or the empty string. -/
def pyFalsy : Option String → Bool
  | none => true
  | some s => s.isEmpty

/-- Auth-key selection from `ClouDNSClient.__init__` (lines 95-103):
`auth-id` for main accounts, `sub-auth-id` for sub-users with an
all-digit id, `sub-auth-user` otherwise. -/
def auth_type (is_subuser : Bool) (auth_id : String) : String :=
  if !is_subuser then "auth-id"
  else if pyIsdigit auth_id then "sub-auth-id"
  else "sub-auth-user"

/-- The auth parameter mapping built once in `__init__` (lines 105-109):
the selected auth key bound to the supplied id, plus `auth-password`. -/
def auth_params (auth_id auth_password : String) (is_subuser : Bool) :
    List (String × String) :=
  [(auth_type is_subuser auth_id, auth_id), ("auth-password", auth_password)]

/-- A decoded API response body as seen by `_check_response`: either a
mapping (of which the classifier reads the `status`,
`statusDescription` and `message` keys) or any non-mapping payload,
kept opaque. -/
inductive Body
  | dict (status statusDescription message : Option String)
  | other (payload : String)
deriving DecidableEq

/-- The exceptions the client raises.  The source has a single class
`ClouDNSError` distinguished by its message template; the embedding
tags each raise site with its own constructor and recovers the exact
message text through `CloudnsErr.message`. -/
inductive CloudnsErr
  | validationMissingValue
  | invalidState (state : String)
  | multipleRecords (host domain_name record_type : String)
  | listFailed (desc : String)
  | domainFailed (operation_name msg : String) (raw : Body)
  | swagger (msg : String)
deriving DecidableEq

/-- The message carried by each raise site, reproducing the Python
f-strings verbatim. -/
def CloudnsErr.message : CloudnsErr → String
  | validationMissingValue =>
      "Value is required when state is 'present'"
  | invalidState s => "Invalid state: " ++ s
  | multipleRecords h d t =>
      "Multiple records found for " ++ h ++ "." ++ d ++ " (" ++ t ++
        "). Cannot determine which to update. Please delete extras first."
  | listFailed desc => "List records failed: " ++ desc
  | domainFailed op m _ => op ++ " failed: " ++ m
  | swagger m => m

/-- The falsy-or chain of `_check_response` line 130:
`response.get('statusDescription') or response.get('message', 'Unknown error')`. -/
def failMessage (statusDescription message : Option String) : String :=
  let sd := statusDescription.getD ""
  if sd.isEmpty then message.getD "Unknown error" else sd

/-- Does the body carry an application-failure status?  Embeds the test
on lines 128-129: a mapping whose `status` is `Failed` or `failed`. -/
def statusFailed : Body → Bool
  | .dict st _ _ => st = some "Failed" || st = some "failed"
  | .other _ => false

/-- Embedding of `ClouDNSClient._check_response` (lines 125-132). -/
def check_response (operation_name : String) (b : Body) :
    Except CloudnsErr Body :=
  match b with
  | .dict st sd m =>
      if st = some "Failed" || st = some "failed" then
        .error (.domainFailed operation_name (failMessage sd m) (.dict st sd m))
      else .ok b
  | .other _ => .ok b

/-- Embedding of `ClouDNSClient._call` (lines 134-142): the outcome of
`SwaggerClient.call_operation` is passed in; a `SwaggerClientError` is
re-raised as `ClouDNSError(str(e))`, and the classifier runs exactly
when `check_response` is true. -/
def pyCall (check : Bool) (operation_name : String)
    (outcome : Except String Body) : Except CloudnsErr Body :=
  match outcome with
  | .error e => .error (.swagger e)
  | .ok b => if check then check_response operation_name b else .ok b

/-- One remote DNS record as the engine reads it: the `record` (value)
and `ttl` keys of the per-id mapping returned by `listRecords`.  Either
key may be missing. -/
structure RecordData where
  record : Option String
  ttl : Option Nat
deriving DecidableEq

/-- The ordered record mapping returned by `list_records`, keyed by
record id. -/
abbrev Records := List (String × RecordData)

/-- The decoded body of a `dnsListRecords` call as `list_records`
inspects it: the optional `status` / `statusDescription` keys and the
record entries.  (A real response is either a failure mapping or a
mapping of ids to records; the embedding superimposes the two.) -/
structure ListRaw where
  status : Option String
  statusDescription : Option String
  entries : Records
deriving DecidableEq

/-- The description test on line 287: the lowercased description
contains `no record` or `not found`. -/
def noRecordDesc (desc : String) : Bool :=
  strContains (lowerStr desc) "no record" || strContains (lowerStr desc) "not found"

/-- Embedding of the classification in `ClouDNSClient.list_records`
(lines 282-291): a `Failed` status whose description matches the
"no records" patterns is an empty result; any other `Failed` status is
an error; otherwise the entries are returned (a falsy response
becomes the empty mapping). -/
def list_records_classify (raw : ListRaw) : Except CloudnsErr Records :=
  if raw.status = some "Failed" then
    let desc := raw.statusDescription.getD ""
    if noRecordDesc desc then .ok []
    else .error (.listFailed desc)
  else if raw.entries.isEmpty then .ok []
  else .ok raw.entries

/-- Claim C6: `list_records` treats a mapping with status `Failed` whose
`statusDescription` contains `no record` or `not found`
(case-insensitively) as an empty result, and a `Failed` status with any
other description as an error. -/
theorem list_records_failed_classification (raw : ListRaw)
    (hst : raw.status = some "Failed") :
    (noRecordDesc (raw.statusDescription.getD "") = true →
      list_records_classify raw = .ok []) ∧
    (noRecordDesc (raw.statusDescription.getD "") = false →
      list_records_classify raw =
        .error (.listFailed (raw.statusDescription.getD ""))) := by
  constructor <;> intro h <;> simp [list_records_classify, hst, h]

/-- Witness for C6 at the spec's scenario: status `Failed` with
description `No records found for this host.` is an empty mapping, and
a different description is an error. -/
theorem list_records_failed_classification_witness :
    list_records_classify
      ⟨some "Failed", some "No records found for this host.", []⟩ = .ok [] ∧
    list_records_classify
      ⟨some "Failed", some "Missing domain-name", []⟩ =
      .error (.listFailed "Missing domain-name") := by
  constructor
  · exact (list_records_failed_classification
      ⟨some "Failed", some "No records found for this host.", []⟩ rfl).1
      (by decide)
  · exact (list_records_failed_classification
      ⟨some "Failed", some "Missing domain-name", []⟩ rfl).2 (by decide)

/-- Claim C7: the authentication key is a pure function of
`(isSubuser, authId all digits)` — `auth-id` for main accounts,
`sub-auth-id` for sub-users whose id is a (nonempty) digit string,
`sub-auth-user` otherwise — and the auth parameter mapping is that key
plus `auth-password`, fixed at construction. -/
theorem auth_key_selection (id pw : String) :
    auth_type false id = "auth-id" ∧
    (pyIsdigit id = true → auth_type true id = "sub-auth-id") ∧
    (pyIsdigit id = false → auth_type true id = "sub-auth-user") ∧
    (∀ su : Bool, auth_params id pw su =
      [(auth_type su id, id), ("auth-password", pw)]) := by
  refine ⟨rfl, fun h => ?_, fun h => ?_, fun su => rfl⟩
  · simp [auth_type, h]
  · simp [auth_type, h]

/-- Witness for C7 at concrete ids: a numeric sub-user id selects
`sub-auth-id`, a username selects `sub-auth-user`, a main account
selects `auth-id`. -/
theorem auth_key_selection_witness :
    auth_type false "12345" = "auth-id" ∧
    auth_type true "12345" = "sub-auth-id" ∧
    auth_type true "alice" = "sub-auth-user" := by
  refine ⟨(auth_key_selection "12345" "pw").1,
    (auth_key_selection "12345" "pw").2.1 (by decide),
    (auth_key_selection "alice" "pw").2.2.1 (by decide)⟩

/-- Claim C9: for every call that does not opt out of classification
(`check_response=True` in `_call`), a decoded mapping whose `status` is
`Failed` or `failed` raises a `ClouDNSError` carrying the
`statusDescription` (falling back to the `message` field, then to
`Unknown error`) together with the raw response, and any other body is
returned unchanged. -/
theorem check_response_classifies (op : String) (b : Body) :
    (statusFailed b = false → pyCall true op (.ok b) = .ok b) ∧
    (∀ st sd m, b = Body.dict st sd m → statusFailed b = true →
      pyCall true op (.ok b) =
        .error (.domainFailed op (failMessage sd m) b)) := by
  constructor
  · intro h
    cases b with
    | dict st sd m =>
        simp only [statusFailed] at h
        simp [pyCall, check_response, h]
    | other p => simp [pyCall, check_response]
  · intro st sd m hb h
    subst hb
    simp only [statusFailed] at h
    simp [pyCall, check_response, h]

/-- Witness for C9: a `Failed` mapping with no `statusDescription`
raises carrying the `message` field and the raw body; a success mapping
passes through unchanged. -/
theorem check_response_classifies_witness :
    pyCall true "dnsAddRecord" (.ok (Body.dict (some "Failed") none (some "bad"))) =
      .error (.domainFailed "dnsAddRecord" "bad"
        (Body.dict (some "Failed") none (some "bad"))) ∧
    pyCall true "dnsAddRecord" (.ok (Body.dict (some "Success") none none)) =
      .ok (Body.dict (some "Success") none none) := by
  constructor
  · exact (check_response_classifies "dnsAddRecord"
      (Body.dict (some "Failed") none (some "bad"))).2
      (some "Failed") none (some "bad") rfl (by decide)
  · exact (check_response_classifies "dnsAddRecord"
      (Body.dict (some "Success") none none)).1 (by decide)

/-- The opaque decoded body returned by a successful mutating call. -/
abbrev ApiData := String

/-- One mutating API call issued by the reconciliation engine, with the
arguments `ensure_record` passes at the call site. -/
inductive MutCall
  | modifyRecord (domain_name record_id host value : String) (ttl : Nat)
      (extras : List (String × String))
  | addRecord (domain_name record_type host value : String) (ttl : Nat)
      (extras : List (String × String))
  | deleteRecord (domain_name record_id : String)
deriving DecidableEq

/-- The arguments of `ensure_record` (lines 916-925).  `value` is
optional (`None` from the module when not supplied); `ttl` is the
module's integer; `extras` stands for the extra keyword arguments
forwarded verbatim to `modify_record` / `add_record`. -/
structure EnsureArgs where
  domain_name : String
  host : String
  record_type : String
  value : Option String
  ttl : Nat
  state : String
  extras : List (String × String)
deriving DecidableEq

/-- The result mapping built by `ensure_record` (lines 944-948 and
1041-1045).  `failed` is the key added by the handler on line 1042;
`caught` records the `ClouDNSError` captured there (`msg` is its
string), `none` when no exception was raised. -/
structure EnsureResult where
  changed : Bool
  msg : String
  data : Option ApiData
  failed : Bool
  caught : Option CloudnsErr
deriving DecidableEq

/-- The outcomes of the underlying client calls during one
`ensure_record` invocation: the single `list_records` call, the (at
most one) `modify_record` or `add_record` call, and each
`delete_record` call keyed by record id.  An `.error` outcome is the
`ClouDNSError` that call raises. -/
structure Env where
  listResp : Except CloudnsErr Records
  modifyResp : Except CloudnsErr ApiData
  addResp : Except CloudnsErr ApiData
  deleteResp : String → Except CloudnsErr ApiData

/-- The loop on lines 959-963: the first entry (in dict order) whose
`record` value equals the desired value. -/
def findMatch (value : String) : Records → Option (String × RecordData)
  | [] => none
  | (rid, r) :: rest =>
      if r.record = some value then some (rid, r) else findMatch value rest

/-- The filter on line 1027: skip the entry when `value` is truthy and
the entry's `record` differs from it. -/
def skipDelete (value : Option String) (r : RecordData) : Bool :=
  !pyFalsy value && !(r.record == value)

/-- The deletion loop on lines 1024-1030: issue one `delete_record` per
non-skipped entry, counting successes; a raising call aborts the loop
with the exception, keeping the calls issued so far (the failing call
included). -/
def deleteRun (env : Env) (domain_name : String) (value : Option String) :
    Records → Nat → List MutCall → Option CloudnsErr × Nat × List MutCall
  | [], count, calls => (none, count, calls)
  | (rid, r) :: rest, count, calls =>
      if skipDelete value r then deleteRun env domain_name value rest count calls
      else
        match env.deleteResp rid with
        | .ok _ =>
            deleteRun env domain_name value rest (count + 1)
              (calls ++ [.deleteRecord domain_name rid])
        | .error e => (some e, count, calls ++ [.deleteRecord domain_name rid])

/-- Embedding of `ClouDNSClient.ensure_record` (lines 916-1045),
returning the result mapping together with the ordered list of mutating
calls issued.  The `try` block catches every `ClouDNSError` (line
1041), setting `failed` and `msg` and leaving `changed`/`data` at the
values they held when the exception was raised. -/
def ensure_record (env : Env) (a : EnsureArgs) :
    EnsureResult × List MutCall :=
  match env.listResp with
  | .error e => (⟨false, e.message, none, true, some e⟩, [])
  | .ok existing =>
    if a.state = "present" then
      if pyFalsy a.value then
        (⟨false, CloudnsErr.validationMissingValue.message, none, true,
          some .validationMissingValue⟩, [])
      else
        let v := a.value.getD ""
        match findMatch v existing with
        | some (rid, r) =>
            let current_ttl := r.ttl.getD 0
            if current_ttl ≠ a.ttl then
              match env.modifyResp with
              | .ok d =>
                  (⟨true,
                    "Record updated (TTL changed from " ++ toString current_ttl ++
                      " to " ++ toString a.ttl ++ ")", some d, false, none⟩,
                   [.modifyRecord a.domain_name rid a.host v a.ttl a.extras])
              | .error e =>
                  (⟨false, e.message, none, true, some e⟩,
                   [.modifyRecord a.domain_name rid a.host v a.ttl a.extras])
            else
              (⟨false, "Record already exists with correct value and TTL",
                none, false, none⟩, [])
        | none =>
            match existing with
            | [(rid, _)] =>
                match env.modifyResp with
                | .ok d =>
                    (⟨true, "Record updated with new value", some d, false, none⟩,
                     [.modifyRecord a.domain_name rid a.host v a.ttl a.extras])
                | .error e =>
                    (⟨false, e.message, none, true, some e⟩,
                     [.modifyRecord a.domain_name rid a.host v a.ttl a.extras])
            | [] =>
                match env.addResp with
                | .ok d =>
                    (⟨true, "Record created", some d, false, none⟩,
                     [.addRecord a.domain_name a.record_type a.host v a.ttl a.extras])
                | .error e =>
                    (⟨false, e.message, none, true, some e⟩,
                     [.addRecord a.domain_name a.record_type a.host v a.ttl a.extras])
            | _ =>
                (⟨false,
                  (CloudnsErr.multipleRecords a.host a.domain_name a.record_type).message,
                  none, true,
                  some (.multipleRecords a.host a.domain_name a.record_type)⟩, [])
    else if a.state = "absent" then
      if existing.isEmpty then
        (⟨false, "Record does not exist", none, false, none⟩, [])
      else
        match deleteRun env a.domain_name a.value existing 0 [] with
        | (some e, _, calls) => (⟨false, e.message, none, true, some e⟩, calls)
        | (none, count, calls) =>
            if count > 0 then
              (⟨true, "Deleted " ++ toString count ++ " record(s)", none,
                false, none⟩, calls)
            else
              (⟨false, "No matching records to delete", none, false, none⟩, calls)
    else
      (⟨false, (CloudnsErr.invalidState a.state).message, none, true,
        some (.invalidState a.state)⟩, [])

/-- An environment faithfully backed by a remote record set for the
queried `(domain, host, type)`: listing returns the records and every
mutating call succeeds. -/
def envOf (remote : Records) : Env :=
  ⟨.ok remote, .ok "ok", .ok "ok", fun _ => .ok "ok"⟩

/-- The remote effect of one successful mutating call on the filtered
record set: `modifyRecord` rewrites the value and ttl of the addressed
id, `addRecord` appends a new record, `deleteRecord` removes the
addressed id. -/
def applyCall (remote : Records) : MutCall → Records
  | .modifyRecord _ rid _ v ttl _ =>
      remote.map fun p => if p.1 = rid then (p.1, ⟨some v, some ttl⟩) else p
  | .addRecord _ _ _ v ttl _ => remote ++ [("fresh", ⟨some v, some ttl⟩)]
  | .deleteRecord _ rid => remote.filter fun p => p.1 ≠ rid

/-- The remote after a sequence of successful calls. -/
def applyCalls (remote : Records) (calls : List MutCall) : Records :=
  calls.foldl applyCall remote

theorem strData_append (s t : String) : (s ++ t).data = s.data ++ t.data := rfl

theorem listStartsWith_self (n t : List Char) : listStartsWith n (n ++ t) = true := by
  induction n with
  | nil => simp [listStartsWith]
  | cons c cs ih => simp [listStartsWith, ih]

theorem listStartsWith_append (n : List Char) (c rest : List Char)
    (h : listStartsWith n c = true) : listStartsWith n (c ++ rest) = true := by
  induction n generalizing c with
  | nil => simp [listStartsWith]
  | cons x xs ih =>
    cases c with
    | nil => simp [listStartsWith] at h
    | cons y ys =>
      simp only [listStartsWith, Bool.and_eq_true, decide_eq_true_eq] at h ⊢
      exact ⟨h.1, ih ys h.2⟩

theorem containsSub_of_startsWith (n hay : List Char)
    (h : listStartsWith n hay = true) : containsSub n hay = true := by
  cases hay with
  | nil => simpa [containsSub] using h
  | cons c rest => simp [containsSub, h]

theorem containsSub_append_left (n a b : List Char)
    (h : containsSub n b = true) : containsSub n (a ++ b) = true := by
  induction a with
  | nil => simpa using h
  | cons c cs ih => simp [containsSub, ih]

theorem containsSub_here (n t : List Char) : containsSub n (n ++ t) = true :=
  containsSub_of_startsWith n (n ++ t) (listStartsWith_self n t)

theorem strContains_chunk (pre mid post : String) :
    strContains (pre ++ mid ++ post) mid = true := by
  unfold strContains
  simp only [strData_append, List.append_assoc]
  exact containsSub_append_left _ _ _ (containsSub_here _ _)

theorem ttl_msg_contains (x y : String) :
    strContains ("Record updated (TTL changed from " ++ x ++ " to " ++ y ++ ")") x
      = true ∧
    strContains ("Record updated (TTL changed from " ++ x ++ " to " ++ y ++ ")") y
      = true := by
  constructor
  · unfold strContains
    simp only [strData_append, List.append_assoc]
    exact containsSub_append_left _ _ _ (containsSub_here _ _)
  · unfold strContains
    simp only [strData_append, List.append_assoc]
    apply containsSub_append_left
    apply containsSub_append_left
    apply containsSub_append_left
    exact containsSub_here _ _

theorem findMatch_modify (v : String) (t : Nat) (rid : String)
    (remote : Records) (r : RecordData)
    (hfind : findMatch v remote = some (rid, r)) :
    ∃ i, findMatch v
        (remote.map fun p => if p.1 = rid then (p.1, ⟨some v, some t⟩) else p) =
      some (i, ⟨some v, some t⟩) := by
  induction remote with
  | nil => simp [findMatch] at hfind
  | cons hd rest ih =>
    obtain ⟨i0, r0⟩ := hd
    rw [List.map_cons]
    by_cases hi : i0 = rid
    · refine ⟨i0, ?_⟩
      rw [if_pos (show (i0, r0).1 = rid from hi)]
      simp [findMatch]
    · rw [if_neg (show ¬(i0, r0).1 = rid from hi)]
      have h0 : r0.record ≠ some v := by
        intro hc
        rw [findMatch, if_pos hc] at hfind
        cases hfind
        exact hi rfl
      rw [findMatch, if_neg h0] at hfind
      obtain ⟨i, hi'⟩ := ih hfind
      refine ⟨i, ?_⟩
      rw [findMatch, if_neg h0, hi']

/-- Claim C1: for `state=present`, when some existing record's value
exactly equals the desired value that record is the target: a differing
ttl issues exactly one `modifyRecord` call and returns `changed=true`
with a message mentioning the old and the new ttl, while an equal ttl
issues no mutating call and returns `changed=false`; consequently,
after the first run's calls are applied to the remote, a second
identical run returns `changed=false`. -/
theorem ensure_present_value_match_spec
    (remote : Records) (a : EnsureArgs) (v rid : String) (r : RecordData)
    (hstate : a.state = "present") (hv : a.value = some v)
    (hne : v.isEmpty = false)
    (hfind : findMatch v remote = some (rid, r)) :
    (r.ttl.getD 0 ≠ a.ttl →
      ensure_record (envOf remote) a =
        (⟨true,
          "Record updated (TTL changed from " ++ toString (r.ttl.getD 0) ++
            " to " ++ toString a.ttl ++ ")", some "ok", false, none⟩,
         [.modifyRecord a.domain_name rid a.host v a.ttl a.extras]) ∧
      strContains (ensure_record (envOf remote) a).1.msg
        (toString (r.ttl.getD 0)) = true ∧
      strContains (ensure_record (envOf remote) a).1.msg (toString a.ttl) = true ∧
      (ensure_record
        (envOf (applyCalls remote (ensure_record (envOf remote) a).2))
        a).1.changed = false) ∧
    (r.ttl.getD 0 = a.ttl →
      ensure_record (envOf remote) a =
        (⟨false, "Record already exists with correct value and TTL",
          none, false, none⟩, [])) := by
  have hfalsy : pyFalsy a.value = false := by
    rw [hv]
    exact hne
  constructor
  · intro hd
    have hrun : ensure_record (envOf remote) a =
        (⟨true,
          "Record updated (TTL changed from " ++ toString (r.ttl.getD 0) ++
            " to " ++ toString a.ttl ++ ")", some "ok", false, none⟩,
         [.modifyRecord a.domain_name rid a.host v a.ttl a.extras]) := by
      simp [ensure_record, envOf, hstate, hfalsy, hv, pyFalsy, hne, hfind, hd]
    refine ⟨hrun, ?_, ?_, ?_⟩
    · rw [hrun]
      exact (ttl_msg_contains (toString (r.ttl.getD 0)) (toString a.ttl)).1
    · rw [hrun]
      exact (ttl_msg_contains (toString (r.ttl.getD 0)) (toString a.ttl)).2
    · rw [hrun]
      obtain ⟨i, hfm⟩ := findMatch_modify v a.ttl rid remote r hfind
      simp [ensure_record, envOf, hstate, hfalsy, hv, pyFalsy, hne,
        applyCalls, applyCall, hfm]
  · intro hd
    simp [ensure_record, envOf, hstate, hfalsy, hv, pyFalsy, hne, hfind, hd]

/-- The spec scenario for C1: one existing record, id 55, value
1.2.3.4, ttl 300. -/
def remoteC1 : Records := [("55", ⟨some "1.2.3.4", some 300⟩)]

/-- The desired state for the C1 scenario. -/
def argsC1 : EnsureArgs :=
  ⟨"example.com", "www", "A", some "1.2.3.4", 3600, "present", []⟩

/-- Witness for C1 at the spec scenario: the run issues one
`modifyRecord(record_id=55, ttl=3600)`, reports `changed=true` with a
message mentioning 300 and 3600, and a second run against the updated
remote reports `changed=false`. -/
theorem ensure_present_value_match_witness :
    (ensure_record (envOf remoteC1) argsC1).1.changed = true ∧
    (ensure_record (envOf remoteC1) argsC1).1.msg =
      "Record updated (TTL changed from 300 to 3600)" ∧
    (ensure_record (envOf remoteC1) argsC1).2 =
      [.modifyRecord "example.com" "55" "www" "1.2.3.4" 3600 []] ∧
    strContains (ensure_record (envOf remoteC1) argsC1).1.msg "300" = true ∧
    strContains (ensure_record (envOf remoteC1) argsC1).1.msg "3600" = true ∧
    (ensure_record
      (envOf (applyCalls remoteC1 (ensure_record (envOf remoteC1) argsC1).2))
      argsC1).1.changed = false := by
  have h := (ensure_present_value_match_spec remoteC1 argsC1 "1.2.3.4" "55"
      ⟨some "1.2.3.4", some 300⟩ rfl rfl rfl (by decide)).1 (by decide)
  refine ⟨?_, ?_, ?_, ?_, ?_, h.2.2.2⟩ <;> rw [h.1] <;> decide

/-- Claim C2: for `state=present`, two or more existing records none of
which matches the desired value make `ensure_record` fail with the
ambiguity `DomainError` — the result carries `failed=true` and the
`Multiple records found` / `Cannot determine which to update` message —
and no mutating call is issued, whatever the outcomes of the mutating
operations would have been. -/
theorem ensure_present_ambiguous_spec
    (env : Env) (a : EnsureArgs) (x y : String × RecordData) (rest : Records)
    (v : String)
    (hlist : env.listResp = .ok (x :: y :: rest))
    (hstate : a.state = "present") (hv : a.value = some v)
    (hne : v.isEmpty = false)
    (hfind : findMatch v (x :: y :: rest) = none) :
    ensure_record env a =
      (⟨false,
        (CloudnsErr.multipleRecords a.host a.domain_name a.record_type).message,
        none, true,
        some (.multipleRecords a.host a.domain_name a.record_type)⟩, []) ∧
    strContains (ensure_record env a).1.msg "Multiple records found" = true ∧
    strContains (ensure_record env a).1.msg "Cannot determine which to update"
      = true := by
  have hrun : ensure_record env a =
      (⟨false,
        (CloudnsErr.multipleRecords a.host a.domain_name a.record_type).message,
        none, true,
        some (.multipleRecords a.host a.domain_name a.record_type)⟩, []) := by
    simp [ensure_record, hlist, hstate, hv, pyFalsy, hne, hfind]
  refine ⟨hrun, ?_, ?_⟩ <;> rw [hrun]
  · show strContains (CloudnsErr.message _) _ = true
    unfold CloudnsErr.message strContains
    simp only [strData_append, List.append_assoc]
    apply containsSub_of_startsWith
    apply listStartsWith_append
    decide
  · show strContains (CloudnsErr.message _) _ = true
    unfold CloudnsErr.message strContains
    simp only [strData_append, List.append_assoc]
    apply containsSub_append_left
    apply containsSub_append_left
    apply containsSub_append_left
    apply containsSub_append_left
    apply containsSub_append_left
    apply containsSub_append_left
    decide

/-- The spec scenario for C2: two candidate records, neither matching
the desired value 1.2.3.4. -/
def remoteC2 : Records :=
  [("10", ⟨some "9.9.9.9", some 300⟩), ("11", ⟨some "8.8.8.8", some 300⟩)]

/-- Witness for C2 at the spec scenario: the run fails with the
ambiguity message and issues no mutating call. -/
theorem ensure_present_ambiguous_witness :
    (ensure_record (envOf remoteC2) argsC1).1.failed = true ∧
    (ensure_record (envOf remoteC2) argsC1).2 = [] ∧
    strContains (ensure_record (envOf remoteC2) argsC1).1.msg
      "Multiple records found" = true ∧
    strContains (ensure_record (envOf remoteC2) argsC1).1.msg
      "Cannot determine which to update" = true := by
  have h := ensure_present_ambiguous_spec (envOf remoteC2) argsC1
      ("10", ⟨some "9.9.9.9", some 300⟩) ("11", ⟨some "8.8.8.8", some 300⟩)
      [] "1.2.3.4" rfl rfl rfl rfl (by decide)
  refine ⟨?_, ?_, h.2.1, h.2.2⟩ <;> rw [h.1]

/-- Claim C3: for `state=present`, when no existing record matches the
desired value and exactly one record exists, `ensure_record` issues one
`modifyRecord` call converging that record to the desired value and
ttl — whatever its current value and ttl are — and returns
`changed=true` with the update message. -/
theorem ensure_present_single_candidate_spec
    (env : Env) (a : EnsureArgs) (v rid : String) (r : RecordData)
    (d : ApiData)
    (hlist : env.listResp = .ok [(rid, r)])
    (hstate : a.state = "present") (hv : a.value = some v)
    (hne : v.isEmpty = false)
    (hr : r.record ≠ some v)
    (hmod : env.modifyResp = .ok d) :
    ensure_record env a =
      (⟨true, "Record updated with new value", some d, false, none⟩,
       [.modifyRecord a.domain_name rid a.host v a.ttl a.extras]) := by
  have hfind : findMatch v [(rid, r)] = none := by
    simp [findMatch, hr]
  simp [ensure_record, hlist, hstate, hv, pyFalsy, hne, hfind, hmod]

/-- Witness for C3: a single existing record with a different value and
ttl is updated unconditionally. -/
theorem ensure_present_single_candidate_witness :
    ensure_record (envOf [("77", ⟨some "9.9.9.9", some 60⟩)]) argsC1 =
      (⟨true, "Record updated with new value", some "ok", false, none⟩,
       [.modifyRecord "example.com" "77" "www" "1.2.3.4" 3600 []]) := by
  have h := ensure_present_single_candidate_spec
      (envOf [("77", ⟨some "9.9.9.9", some 60⟩)]) argsC1 "1.2.3.4" "77"
      ⟨some "9.9.9.9", some 60⟩ "ok" rfl rfl rfl rfl (by decide) rfl
  exact h

/-- Claim C4: for `state=present`, zero existing records lead to exactly
one `addRecord` call carrying the desired host, type, value, ttl and
extra attributes, and a `changed=true` create result. -/
theorem ensure_present_creates_spec
    (env : Env) (a : EnsureArgs) (v : String) (d : ApiData)
    (hlist : env.listResp = .ok [])
    (hstate : a.state = "present") (hv : a.value = some v)
    (hne : v.isEmpty = false)
    (hadd : env.addResp = .ok d) :
    ensure_record env a =
      (⟨true, "Record created", some d, false, none⟩,
       [.addRecord a.domain_name a.record_type a.host v a.ttl a.extras]) := by
  simp [ensure_record, hlist, hstate, hv, pyFalsy, hne, findMatch, hadd]

/-- Witness for C4 at the spec scenario: no existing records, desired
`(host=www, type=A, value=1.2.3.4, ttl=3600)` issues one `addRecord`
and reports `changed=true`. -/
theorem ensure_present_creates_witness :
    ensure_record (envOf []) argsC1 =
      (⟨true, "Record created", some "ok", false, none⟩,
       [.addRecord "example.com" "A" "www" "1.2.3.4" 3600 []]) := by
  have h := ensure_present_creates_spec (envOf []) argsC1 "1.2.3.4" "ok"
      rfl rfl rfl rfl rfl
  exact h

theorem deleteRun_all_ok (remote : Records) (dn : String)
    (value : Option String) (recs : Records) (n : Nat) (calls : List MutCall) :
    deleteRun (envOf remote) dn value recs n calls =
      (none,
       n + (recs.filter fun p => !skipDelete value p.2).length,
       calls ++ (recs.filter fun p => !skipDelete value p.2).map
         fun p => .deleteRecord dn p.1) := by
  induction recs generalizing n calls with
  | nil => simp [deleteRun]
  | cons hd rest ih =>
    obtain ⟨rid, r⟩ := hd
    by_cases hs : skipDelete value r = true
    · simp [deleteRun, hs, List.filter_cons, ih]
    · rw [Bool.not_eq_true] at hs
      have hdel : (envOf remote).deleteResp rid = Except.ok "ok" := rfl
      simp only [deleteRun, hs, Bool.false_eq_true, if_false, hdel]
      rw [ih]
      simp [List.filter_cons, hs]
      omega

/-- The delete-filter as claim C5 words it, for comparison with the
source's `skipDelete`: an entry is targeted when its value equals the
supplied `value`, or unconditionally when `value` is omitted. -/
def specDeleteKeep (value : Option String) (r : RecordData) : Bool :=
  match value with
  | none => true
  | some v => r.record == some v

/-- Counterexample to claim C5 as stated: with `state=absent` and
`value` supplied as the empty string, the claim's filter targets no
record (no record's value equals the empty string), yet the code's
truthiness test treats the empty string like an omitted value and
deletes the non-matching record, returning `changed=true`. -/
theorem ensure_absent_filter_counterexample :
    (ensure_record (envOf [("56", ⟨some "5.6.7.8", some 300⟩)])
        ⟨"example.com", "www", "A", some "", 3600, "absent", []⟩).2 =
      [.deleteRecord "example.com" "56"] ∧
    ([("56", (⟨some "5.6.7.8", some 300⟩ : RecordData))].filter
        fun p => specDeleteKeep (some "") p.2) = [] ∧
    (ensure_record (envOf [("56", ⟨some "5.6.7.8", some 300⟩)])
        ⟨"example.com", "www", "A", some "", 3600, "absent", []⟩).1.changed
      = true := by decide

/-- Claim C5 as amended: for `state=absent`, zero existing records give
`changed=false` with no mutating call; otherwise one `deleteRecord` is
issued per existing record whose value equals the supplied value — or
per every existing record when `value` is omitted **or empty**
(Python truthiness) — `changed=true` exactly when the number of
deletions is positive, and the message reports that count. -/
theorem ensure_absent_spec (remote : Records) (a : EnsureArgs)
    (hstate : a.state = "absent") :
    (remote = [] →
      ensure_record (envOf remote) a =
        (⟨false, "Record does not exist", none, false, none⟩, [])) ∧
    (remote ≠ [] →
      (ensure_record (envOf remote) a).2 =
        (remote.filter fun p => !skipDelete a.value p.2).map
          (fun p => .deleteRecord a.domain_name p.1) ∧
      (0 < (remote.filter fun p => !skipDelete a.value p.2).length →
        (ensure_record (envOf remote) a).1 =
          ⟨true,
            "Deleted " ++
              toString (remote.filter fun p => !skipDelete a.value p.2).length
              ++ " record(s)", none, false, none⟩) ∧
      ((remote.filter fun p => !skipDelete a.value p.2).length = 0 →
        (ensure_record (envOf remote) a).1 =
          ⟨false, "No matching records to delete", none, false, none⟩)) := by
  constructor
  · intro h
    subst h
    simp [ensure_record, envOf, hstate]
  · intro h
    have hne : remote.isEmpty = false := by
      cases remote with
      | nil => exact absurd rfl h
      | cons x xs => rfl
    have hlist : (envOf remote).listResp = Except.ok remote := rfl
    have hrun := deleteRun_all_ok remote a.domain_name a.value remote 0 []
    refine ⟨?_, ?_, ?_⟩
    · simp only [ensure_record, hlist, hstate, hne, hrun]
      rcases Nat.eq_zero_or_pos
          (remote.filter fun p => !skipDelete a.value p.2).length with h0 | hp
      · simp [h0]
      · simp [hp, Nat.pos_iff_ne_zero.mp hp]
    · intro hpos
      simp only [ensure_record, hlist, hstate, hne, hrun]
      simp [hpos]
    · intro hzero
      simp only [ensure_record, hlist, hstate, hne, hrun]
      simp [hzero]

/-- The spec scenario for C5: two records, one matching value 1.2.3.4. -/
def remoteC5 : Records :=
  [("55", ⟨some "1.2.3.4", some 300⟩), ("56", ⟨some "5.6.7.8", some 300⟩)]

/-- The desired state for the C5 scenario: delete value 1.2.3.4. -/
def argsC5 : EnsureArgs :=
  ⟨"example.com", "www", "A", some "1.2.3.4", 3600, "absent", []⟩

/-- Witness for the amended C5 at the spec scenario: exactly one
`deleteRecord` call, `changed=true`, message reporting count 1. -/
theorem ensure_absent_witness :
    (ensure_record (envOf remoteC5) argsC5).2 =
      [.deleteRecord "example.com" "55"] ∧
    (ensure_record (envOf remoteC5) argsC5).1 =
      ⟨true, "Deleted 1 record(s)", none, false, none⟩ := by
  have h := (ensure_absent_spec remoteC5 argsC5 rfl).2 (by decide)
  constructor
  · rw [h.1]
    decide
  · rw [h.2.1 (by decide)]
    decide

/-- Is the captured exception one of the two validation raise sites
(missing value, unsupported state)? -/
def isValidation : Option CloudnsErr → Bool
  | some .validationMissingValue => true
  | some (.invalidState _) => true
  | _ => false

/-- Is the exception one of the kinds an underlying API call can raise
(`_check_response` failure, the list-records failure, or a transport
error surfaced as `ClouDNSError(str(e))`)? -/
def isApiErr : CloudnsErr → Bool
  | .domainFailed .. => true
  | .listFailed _ => true
  | .swagger _ => true
  | _ => false

theorem apiErr_not_validation (e : CloudnsErr) (he : isApiErr e = true) :
    isValidation (some e) = false := by
  cases e <;> simp [isApiErr, isValidation] at he ⊢

theorem deleteRun_error (env : Env) (dn : String) (value : Option String)
    (recs : Records) (n : Nat) (calls : List MutCall) (e : CloudnsErr)
    (h : (deleteRun env dn value recs n calls).1 = some e) :
    ∃ i, env.deleteResp i = .error e := by
  induction recs generalizing n calls with
  | nil => simp [deleteRun] at h
  | cons hd rest ih =>
    obtain ⟨rid, r⟩ := hd
    by_cases hs : skipDelete value r = true
    · rw [show deleteRun env dn value ((rid, r) :: rest) n calls =
          deleteRun env dn value rest n calls from by
            simp only [deleteRun, hs, if_true]] at h
      exact ih _ _ h
    · rw [Bool.not_eq_true] at hs
      cases hdel : env.deleteResp rid with
      | ok d =>
        rw [show deleteRun env dn value ((rid, r) :: rest) n calls =
            deleteRun env dn value rest (n + 1)
              (calls ++ [.deleteRecord dn rid]) from by
              simp only [deleteRun, hs, Bool.false_eq_true, if_false, hdel]] at h
        exact ih _ _ h
      | error e2 =>
        rw [show deleteRun env dn value ((rid, r) :: rest) n calls =
            (some e2, n, calls ++ [.deleteRecord dn rid]) from by
              simp only [deleteRun, hs, Bool.false_eq_true, if_false, hdel]] at h
        simp only [] at h
        refine ⟨rid, ?_⟩
        rw [hdel]
        cases h
        rfl

/-- Counterexample to claim C8 as stated: with `state=present` and
`value` supplied as the empty string — supplied, hence not absent — the
code raises the validation error anyway, because line 955 tests Python
truthiness (`if not value`) rather than presence. -/
theorem ensure_validation_counterexample :
    isValidation (ensure_record (envOf [])
        ⟨"example.com", "www", "A", some "", 3600, "present", []⟩).1.caught
      = true ∧
    (⟨"example.com", "www", "A", some "", 3600, "present", []⟩ :
        EnsureArgs).value ≠ none := by
  constructor
  · decide
  · intro h
    cases h

/-- Claim C8 as amended: provided the initial `listRecords` call
succeeds (the code lists before validating) and the underlying calls
only raise API-kind errors, `ensure_record` captures a validation error
if and only if `state=present` with `value` absent **or empty**, or
`state` is neither `present` nor `absent`; in both cases no mutating
call is issued. -/
theorem ensure_validation_iff (env : Env) (a : EnsureArgs) (recs : Records)
    (hlist : env.listResp = .ok recs)
    (hmod : ∀ e, env.modifyResp = .error e → isApiErr e = true)
    (hadd : ∀ e, env.addResp = .error e → isApiErr e = true)
    (hdel : ∀ i e, env.deleteResp i = .error e → isApiErr e = true) :
    (isValidation (ensure_record env a).1.caught = true ↔
      (a.state = "present" ∧ pyFalsy a.value = true) ∨
      (a.state ≠ "present" ∧ a.state ≠ "absent")) ∧
    ((a.state = "present" ∧ pyFalsy a.value = true) ∨
      (a.state ≠ "present" ∧ a.state ≠ "absent") →
      (ensure_record env a).2 = []) := by
  by_cases hp : a.state = "present"
  · by_cases hf : pyFalsy a.value = true
    · have hrun : ensure_record env a =
          (⟨false, CloudnsErr.validationMissingValue.message, none, true,
            some .validationMissingValue⟩, []) := by
        simp [ensure_record, hlist, hp, hf]
      constructor
      · rw [hrun]
        simp only [isValidation, true_iff]
        exact Or.inl ⟨hp, hf⟩
      · intro _
        rw [hrun]
    · rw [Bool.not_eq_true] at hf
      have hRHS : ¬ ((a.state = "present" ∧ pyFalsy a.value = true) ∨
          (a.state ≠ "present" ∧ a.state ≠ "absent")) := by
        rintro (⟨-, h2⟩ | ⟨h1, -⟩)
        · rw [hf] at h2
          cases h2
        · exact h1 hp
      obtain ⟨v, hv, hne⟩ : ∃ v, a.value = some v ∧ v.isEmpty = false := by
        cases hval : a.value with
        | none => rw [hval] at hf; cases hf
        | some s => exact ⟨s, rfl, by rw [hval] at hf; exact hf⟩
      have hnv : isValidation (ensure_record env a).1.caught = false := by
        cases hfm : findMatch v recs with
        | some p =>
          obtain ⟨rid, r⟩ := p
          by_cases htl : r.ttl.getD 0 = a.ttl
          · simp [ensure_record, hlist, hp, hv, pyFalsy, hne, hfm, htl,
              isValidation]
          · cases hm : env.modifyResp with
            | ok d =>
              simp [ensure_record, hlist, hp, hv, pyFalsy, hne, hfm, htl, hm,
                isValidation]
            | error e =>
              simp [ensure_record, hlist, hp, hv, pyFalsy, hne, hfm, htl, hm]
              exact apiErr_not_validation e (hmod e hm)
        | none =>
          match recs, hfm with
          | [(rid, r)], hfm =>
            cases hm : env.modifyResp with
            | ok d =>
              simp [ensure_record, hlist, hp, hv, pyFalsy, hne, hfm, hm,
                isValidation]
            | error e =>
              simp [ensure_record, hlist, hp, hv, pyFalsy, hne, hfm, hm]
              exact apiErr_not_validation e (hmod e hm)
          | [], hfm =>
            cases ha : env.addResp with
            | ok d =>
              simp [ensure_record, hlist, hp, hv, pyFalsy, hne, hfm, ha,
                isValidation]
            | error e =>
              simp [ensure_record, hlist, hp, hv, pyFalsy, hne, hfm, ha]
              exact apiErr_not_validation e (hadd e ha)
          | x :: y :: rest, hfm =>
            simp [ensure_record, hlist, hp, hv, pyFalsy, hne, hfm, isValidation]
      constructor
      · rw [hnv]
        simp only [Bool.false_eq_true, false_iff]
        exact hRHS
      · intro hc
        exact absurd hc hRHS
  · by_cases hab : a.state = "absent"
    · have hRHS : ¬ ((a.state = "present" ∧ pyFalsy a.value = true) ∨
          (a.state ≠ "present" ∧ a.state ≠ "absent")) := by
        rintro (⟨h1, -⟩ | ⟨-, h2⟩)
        · exact hp h1
        · exact h2 hab
      have hnv : isValidation (ensure_record env a).1.caught = false := by
        cases hre : recs.isEmpty with
        | true =>
          simp [ensure_record, hlist, hp, hab, hre, isValidation]
        | false =>
          rcases hdr : deleteRun env a.domain_name a.value recs 0 [] with
            ⟨o, cnt, cls⟩
          cases o with
          | none =>
            by_cases hcnt : 0 < cnt
            · simp [ensure_record, hlist, hp, hab, hre, hdr, hcnt, isValidation]
            · simp [ensure_record, hlist, hp, hab, hre, hdr, hcnt, isValidation]
          | some e =>
            have he : isApiErr e = true := by
              obtain ⟨i, hi⟩ := deleteRun_error env a.domain_name a.value recs
                0 [] e (by rw [hdr])
              exact hdel i e hi
            simp [ensure_record, hlist, hp, hab, hre, hdr]
            exact apiErr_not_validation e he
      constructor
      · rw [hnv]
        simp only [Bool.false_eq_true, false_iff]
        exact hRHS
      · intro hc
        exact absurd hc hRHS
    · have hrun : ensure_record env a =
          (⟨false, (CloudnsErr.invalidState a.state).message, none, true,
            some (.invalidState a.state)⟩, []) := by
        simp [ensure_record, hlist, hp, hab]
      constructor
      · rw [hrun]
        simp only [isValidation, true_iff]
        exact Or.inr ⟨hp, hab⟩
      · intro _
        rw [hrun]

/-- The API failure raised by the second delete in the C10 scenario. -/
def errC10 : CloudnsErr :=
  .domainFailed "dnsDeleteRecord" "boom" (.dict (some "Failed") (some "boom") none)

/-- The C10 scenario environment: two records match the value; deleting
record 1 succeeds, deleting record 2 raises an API failure. -/
def envC10 : Env :=
  ⟨.ok [("1", ⟨some "1.2.3.4", some 300⟩), ("2", ⟨some "1.2.3.4", some 300⟩)],
   .ok "ok", .ok "ok", fun i => if i = "2" then .error errC10 else .ok "ok"⟩

/-- The C10 scenario arguments: delete every record with value 1.2.3.4. -/
def argsC10 : EnsureArgs :=
  ⟨"example.com", "www", "A", some "1.2.3.4", 300, "absent", []⟩

/-- Claim C10: `ensure_record` never propagates a `ClouDNSError` — the
embedding is total, and whenever an exception is captured the result
has `failed=true`, `msg` set to the exception's message and `changed`
still false; conversely `failed` is set only when an exception was
captured.  In the `state=absent` scenario `envC10`, the first delete
has already succeeded when the second raises, so `changed=false` is
returned even though the remote did lose a record. -/
theorem ensure_record_catches_all :
    (∀ (env : Env) (a : EnsureArgs),
      ((ensure_record env a).1.failed = true ↔
        (ensure_record env a).1.caught ≠ none) ∧
      (∀ e, (ensure_record env a).1.caught = some e →
        (ensure_record env a).1.msg = CloudnsErr.message e ∧
        (ensure_record env a).1.changed = false)) ∧
    (ensure_record envC10 argsC10 =
      (⟨false, CloudnsErr.message errC10, none, true, some errC10⟩,
       [.deleteRecord "example.com" "1", .deleteRecord "example.com" "2"]) ∧
     envC10.deleteResp "1" = .ok "ok") := by
  constructor
  · intro env a
    unfold ensure_record
    repeat' split
    all_goals try simp
    all_goals repeat' split
    all_goals simp
  · constructor
    · decide
    · rfl

/-- Witness for the amended C8: an absent `value` with `state=present`
yields the validation failure with no mutating call, at an environment
whose calls all succeed. -/
theorem ensure_validation_witness :
    isValidation (ensure_record (envOf [])
        ⟨"example.com", "www", "A", none, 3600, "present", []⟩).1.caught
      = true ∧
    (ensure_record (envOf [])
        ⟨"example.com", "www", "A", none, 3600, "present", []⟩).2 = [] := by
  have h := ensure_validation_iff (envOf [])
      ⟨"example.com", "www", "A", none, 3600, "present", []⟩ [] rfl
      (fun e he => by simp [envOf] at he)
      (fun e he => by simp [envOf] at he)
      (fun i e he => by simp [envOf] at he)
  exact ⟨h.1.mpr (Or.inl ⟨rfl, rfl⟩), h.2 (Or.inl ⟨rfl, rfl⟩)⟩

/-- Witness for C10 at a concrete input: a missing value is captured,
reported as `failed=true` with the exception's message and
`changed=false`. -/
theorem ensure_record_catches_all_witness :
    (ensure_record (envOf [])
        ⟨"example.com", "www", "A", none, 300, "present", []⟩).1.failed
      = true ∧
    (ensure_record (envOf [])
        ⟨"example.com", "www", "A", none, 300, "present", []⟩).1.msg =
      CloudnsErr.message .validationMissingValue ∧
    (ensure_record (envOf [])
        ⟨"example.com", "www", "A", none, 300, "present", []⟩).1.changed
      = false := by
  have h := ensure_record_catches_all.1 (envOf [])
      ⟨"example.com", "www", "A", none, 300, "present", []⟩
  refine ⟨h.1.mpr (by decide), ?_, ?_⟩
  · exact (h.2 CloudnsErr.validationMissingValue (by decide)).1
  · exact (h.2 CloudnsErr.validationMissingValue (by decide)).2
